import Mathlib

/-!
Shallow embedding of the Currents API MCP server access layer
(src/currents_server.py): Python values, the TTL cache, the response
normalizer `format_news_article`, the authenticated request helper
`make_api_request`, and the externally callable operations.

Python runtime values are modelled by the inductive type `PyVal`;
Python exceptions by `Except String`; wall-clock time (`time.time()`)
and the HTTP transport are passed in explicitly.  Each operation
returns the structured payload that the source passes to `json.dumps`
(serialization itself is out of scope) together with the updated cache
state, where relevant, and a flag recording whether an outbound
network call was made (`client.get` reached).
-/

set_option autoImplicit false

/-- A Python runtime value, as far as this server manipulates them:
`None`, booleans, integers, strings, lists, and string-keyed dicts
(modelled as association lists; dicts built by the server have unique
keys). -/
inductive PyVal where
  | none
  | bool (b : Bool)
  | int (n : Int)
  | str (s : String)
  | list (xs : List PyVal)
  | dict (kvs : List (String × PyVal))

/-- The Python type name of a value, used in exception messages. -/
def pyTypeName : PyVal → String
  | PyVal.none => "NoneType"
  | PyVal.bool _ => "bool"
  | PyVal.int _ => "int"
  | PyVal.str _ => "str"
  | PyVal.list _ => "list"
  | PyVal.dict _ => "dict"

/-- Python truthiness (`if value:`). -/
def pyTruthy : PyVal → Bool
  | PyVal.none => false
  | PyVal.bool b => b
  | PyVal.int n => !(n == 0)
  | PyVal.str s => !(s == "")
  | PyVal.list xs => !xs.isEmpty
  | PyVal.dict kvs => !kvs.isEmpty

/-- Truthiness of an optional string (`if s:` where `s` is `None` or a
`str`): false for `None` and for the empty string. -/
def optStrTruthy : Option String → Bool
  | Option.none => false
  | Option.some s => !(s == "")

/-- Dictionary lookup: `k in d` / `d[k]` combined into an option. -/
def pyGet (kvs : List (String × PyVal)) (k : String) : Option PyVal :=
  (kvs.find? (fun p => p.1 == k)).map Prod.snd

/-- `d.get(k, default)`: the stored value when the key is present
(even when that value is `None`), otherwise the default. -/
def dictGetD (kvs : List (String × PyVal)) (k : String) (d : PyVal) : PyVal :=
  (pyGet kvs k).getD d

/-- Lookup of a key inside a `PyVal` that should be a dict; `Option.none`
when the value is not a dict or lacks the key.  Used to state properties
of result payloads. -/
def pyGetKey : PyVal → String → Option PyVal
  | PyVal.dict kvs, k => pyGet kvs k
  | _, _ => Option.none

/-- `len(v)` for the types that support it; `TypeError` otherwise. -/
def pyLen : PyVal → Except String Int
  | PyVal.dict kvs => Except.ok (kvs.length : Int)
  | PyVal.list xs => Except.ok (xs.length : Int)
  | PyVal.str s => Except.ok (s.length : Int)
  | v => Except.error ("TypeError: object of type " ++ pyTypeName v ++ " has no len")

/-- `s.strip()` on a string: drop leading and trailing whitespace. -/
def pyStripStr (s : String) : String :=
  String.mk (((s.toList.dropWhile Char.isWhitespace).reverse.dropWhile
    Char.isWhitespace).reverse)

/-- `v.strip()`: defined on strings, `AttributeError` on anything else
(in particular on `None`). -/
def pyStrip : PyVal → Except String PyVal
  | PyVal.str s => Except.ok (PyVal.str (pyStripStr s))
  | v => Except.error ("AttributeError: " ++ pyTypeName v ++ " object has no attribute strip")

/-- `v[:m]`: slicing, defined on lists and strings. -/
def pySlice : PyVal → Nat → Except String PyVal
  | PyVal.list xs, m => Except.ok (PyVal.list (xs.take m))
  | PyVal.str s, m => Except.ok (PyVal.str (s.take m))
  | v, _ => Except.error ("TypeError: " ++ pyTypeName v ++ " object is not subscriptable")

/-- Iteration over a value (`for x in v`): lists yield their elements,
strings yield their characters as one-character strings. -/
def pyIterate : PyVal → Except String (List PyVal)
  | PyVal.list xs => Except.ok xs
  | PyVal.str s => Except.ok (s.toList.map (fun c => PyVal.str (String.singleton c)))
  | v => Except.error ("TypeError: " ++ pyTypeName v ++ " object is not iterable")

/-- Left-to-right effectful map over a list, stopping at the first
error: the semantics of the list comprehension
`[format_news_article(a) for a in articles]` when the body may raise. -/
def exceptMapM {α β : Type} (f : α → Except String β) : List α → Except String (List β)
  | [] => Except.ok []
  | a :: as =>
    match f a with
    | Except.error e => Except.error e
    | Except.ok b =>
      match exceptMapM f as with
      | Except.error e => Except.error e
      | Except.ok bs => Except.ok (b :: bs)

/-- An optional string as the JSON value the source serializes it to. -/
def optPy : Option String → PyVal
  | Option.some s => PyVal.str s
  | Option.none => PyVal.none

/-- Environment-derived configuration (`API_TIMEOUT`, `DEFAULT_LANGUAGE`,
`MAX_RESULTS`), resolved once at startup. -/
structure ServerConfig where
  timeout : Nat
  defaultLanguage : String
  maxResults : Nat

/-- The defaults used when the environment supplies nothing:
timeout 15, language "en", 20 results. -/
def defaultServerConfig : ServerConfig := ⟨15, "en", 20⟩

/-- `API_BASE_URL` constant. -/
def API_BASE_URL : String := "https://api.currentsapi.services/v1"

/-- `CACHE_TTL = 300` (5 minutes). -/
def CACHE_TTL : Int := 300

/-- One `_cache` entry: `{"data": ..., "timestamp": ...}`. -/
structure CacheEntry where
  data : PyVal
  timestamp : Int

/-- The `_cache` dict, key to entry. -/
abbrev Cache := List (String × CacheEntry)

/-- Lookup of a cache key (`cache_key in _cache` / `_cache[cache_key]`). -/
def cacheLookup (cache : Cache) (k : String) : Option CacheEntry :=
  (cache.find? (fun p => p.1 == k)).map Prod.snd

/-- `is_cache_valid`: the key is present and strictly less than
`CACHE_TTL` time units have elapsed since it was stored. -/
def is_cache_valid (cache : Cache) (now : Int) (k : String) : Bool :=
  match cacheLookup cache k with
  | Option.none => false
  | Option.some e => decide (now - e.timestamp < CACHE_TTL)

/-- `get_cached_data`: the stored value when valid, otherwise absent. -/
def get_cached_data (cache : Cache) (now : Int) (k : String) : Option PyVal :=
  if is_cache_valid cache now k then (cacheLookup cache k).map CacheEntry.data
  else Option.none

/-- `set_cached_data`: store `data` under the key with the current
timestamp, replacing any prior entry (the new binding shadows it). -/
def set_cached_data (cache : Cache) (k : String) (data : PyVal) (now : Int) : Cache :=
  (k, ⟨data, now⟩) :: cache

/-- Whether a cache read yields a truthy value: the combined
`cached_data = get_cached_data(key)` / `if cached_data:` test used by
the reference-data operations. -/
def cacheHitTruthy (cache : Cache) (now : Int) (k : String) : Bool :=
  match get_cached_data cache now k with
  | Option.some d => pyTruthy d
  | Option.none => false

/-- `validate_date_format`: the source calls the external
`dateutil.parser.parse` inside try/except and returns whether it
succeeded.  The acceptance verdict of that external parsing function is
abstracted into the `accepts` argument. -/
def validate_date_format (accepts : String → Bool) (s : String) : Bool :=
  accepts s

/-- The sentinel test `article.get("image") != "None"`: equality of an
arbitrary Python value with the string literal. -/
def isNoneSentinel : PyVal → Bool
  | PyVal.str s => s == "None"
  | _ => false

/-- The image field: the raw value unless it equals the sentinel string
"None", in which case `None`. -/
def imageField (v : PyVal) : PyVal :=
  if isNoneSentinel v then PyVal.none else v

/-- The field construction of `format_news_article` on a dict input.
The source evaluates the dict literal field by field, so a failing
`.strip()` on `title` is raised before `description` is touched. -/
def format_news_article_fields (kvs : List (String × PyVal)) : Except String PyVal :=
  match pyStrip (dictGetD kvs "title" (PyVal.str "")) with
  | Except.error e => Except.error e
  | Except.ok title =>
    match pyStrip (dictGetD kvs "description" (PyVal.str "")) with
    | Except.error e => Except.error e
    | Except.ok descr =>
      Except.ok (PyVal.dict [
        ("id", dictGetD kvs "id" (PyVal.str "")),
        ("title", title),
        ("description", descr),
        ("url", dictGetD kvs "url" (PyVal.str "")),
        ("author", dictGetD kvs "author" (PyVal.str "Unknown")),
        ("image", imageField (dictGetD kvs "image" PyVal.none)),
        ("language", dictGetD kvs "language" (PyVal.str "")),
        ("category", dictGetD kvs "category" (PyVal.list [])),
        ("published", dictGetD kvs "published" (PyVal.str "")),
        ("source", PyVal.str "Currents API")])

/-- `format_news_article`: normalize one raw article into the fixed
output shape; `.get` on a non-dict raises `AttributeError`. -/
def format_news_article (article : PyVal) : Except String PyVal :=
  match article with
  | PyVal.dict kvs => format_news_article_fields kvs
  | v => Except.error ("AttributeError: " ++ pyTypeName v ++ " object has no attribute get")

/-- What the HTTP transport did for one outbound call: an HTTP response
with a status code and decoded JSON body, a timeout, or a lower-level
network failure. -/
inductive TransportOutcome where
  | response (status : Nat) (body : PyVal)
  | timeout
  | networkError (msg : String)

/-- The rate-limit error message raised on HTTP 429. -/
def rateLimitMsg : String := "Rate limit exceeded. Free tier allows 600 requests per hour."

/-- The invalid-credential error message raised on HTTP 401. -/
def invalidKeyMsg : String := "Invalid API key. Please check your CURRENTS_API_KEY."

/-- The configuration error message raised when no API key is set. -/
def missingKeyMsg : String := "CURRENTS_API_KEY environment variable is required"

/-- The timeout error message, naming the configured timeout. -/
def timeoutMsg (cfg : ServerConfig) : String :=
  "Request timeout after " ++ toString cfg.timeout ++ " seconds"

/-- `make_api_request`: raises (returns `Except.error`) the classified
message for a missing key (before any network call — second component
false), HTTP 401 / 429 / 400 / 5xx, a remaining 4xx (the
`raise_for_status` `HTTPStatusError`, whose text we abbreviate), a
transport timeout, or a network failure; otherwise returns the decoded
body.  The query `params` are forwarded to the transport, whose
behavior is abstracted by `outcome`. -/
def make_api_request (cfg : ServerConfig) (apiKey : Option String)
    (params : List (String × String)) (outcome : TransportOutcome) :
    Except String PyVal × Bool :=
  if optStrTruthy apiKey then
    match outcome with
    | TransportOutcome.response st body =>
      if st == 401 then (Except.error invalidKeyMsg, true)
      else if st == 429 then (Except.error rateLimitMsg, true)
      else if st == 400 then (Except.error "Bad request. Please check your parameters.", true)
      else if 500 ≤ st then (Except.error "API server error. Please try again later.", true)
      else if 400 ≤ st then (Except.error ("HTTP status error " ++ toString st), true)
      else (Except.ok body, true)
    | TransportOutcome.timeout => (Except.error (timeoutMsg cfg), true)
    | TransportOutcome.networkError m => (Except.error ("Network error: " ++ m), true)
  else (Except.error missingKeyMsg, false)

/-- The uniform error result each operation returns from its
`except` clause or an early validation failure:
`{"status": "error", "message": ...}`. -/
def errorPayload (msg : String) : PyVal :=
  PyVal.dict [("status", PyVal.str "error"), ("message", PyVal.str msg)]

/-- The test `response.get("status") == "ok"`. -/
def statusOk (v : Option PyVal) : Bool :=
  match v with
  | Option.some (PyVal.str s) => s == "ok"
  | _ => false

/-- The search-date format hint for a bad `start_date`. -/
def startDateErrMsg : String :=
  "Invalid start_date format. Use ISO 8601: YYYY-MM-DDTHH:MM:SS+00:00"

/-- The search-date format hint for a bad `end_date`. -/
def endDateErrMsg : String :=
  "Invalid end_date format. Use ISO 8601: YYYY-MM-DDTHH:MM:SS+00:00"

/-- The combined test `if start_date and not validate_date_format(start_date)`:
the date is supplied, truthy (non-empty), and rejected by the parser. -/
def suppliedInvalid (accepts : String → Bool) : Option String → Bool
  | Option.none => false
  | Option.some s => !(s == "") && !(validate_date_format accepts s)

/-- One optional query parameter: added only when truthy (non-empty). -/
def addParam (k : String) : Option String → List (String × String)
  | Option.some s => if s == "" then [] else [(k, s)]
  | Option.none => []

/-- The `params` dict built by `search_news` from the non-empty inputs. -/
def buildSearchParams (keywords language country category start_date end_date :
    Option String) : List (String × String) :=
  addParam "keywords" keywords ++ addParam "language" language ++
  addParam "country" country ++ addParam "category" category ++
  addParam "start_date" start_date ++ addParam "end_date" end_date

/-- The `search_params` echo included in a successful search result. -/
def searchParamsEcho (keywords language country category start_date end_date :
    Option String) : PyVal :=
  PyVal.dict [
    ("keywords", optPy keywords),
    ("language", optPy language),
    ("country", optPy country),
    ("category", optPy category),
    ("start_date", optPy start_date),
    ("end_date", optPy end_date)]

/-- The body of `search_news` after date validation: make the request,
and on an ok-status response slice the news list to `MAX_RESULTS`,
normalize each article, and wrap the success payload; every raised
error becomes an `errorPayload` via the surrounding `except` clause. -/
def searchFetch (cfg : ServerConfig) (apiKey : Option String)
    (keywords language country category start_date end_date : Option String)
    (outcome : TransportOutcome) : PyVal × Bool :=
  match make_api_request cfg apiKey
      (buildSearchParams keywords language country category start_date end_date)
      outcome with
  | (Except.error e, att) => (errorPayload e, att)
  | (Except.ok resp, att) =>
    match resp with
    | PyVal.dict kvs =>
      if statusOk (pyGet kvs "status") then
        match pySlice (dictGetD kvs "news" (PyVal.list [])) cfg.maxResults with
        | Except.error e => (errorPayload e, att)
        | Except.ok sliced =>
          match pyIterate sliced with
          | Except.error e => (errorPayload e, att)
          | Except.ok articles =>
            match exceptMapM format_news_article articles with
            | Except.error e => (errorPayload e, att)
            | Except.ok formatted =>
              (PyVal.dict [
                ("status", PyVal.str "success"),
                ("total_results", PyVal.int (formatted.length : Int)),
                ("articles", PyVal.list formatted),
                ("search_params", searchParamsEcho keywords language country
                  category start_date end_date)], att)
      else (errorPayload "No results found or API error occurred", att)
    | v => (errorPayload ("AttributeError: " ++ pyTypeName v ++
        " object has no attribute get"), att)

/-- `search_news`: validate the supplied dates (returning the format
hint without any network call on failure), then fetch and normalize. -/
def search_news (cfg : ServerConfig) (accepts : String → Bool)
    (apiKey : Option String)
    (keywords language country category start_date end_date : Option String)
    (outcome : TransportOutcome) : PyVal × Bool :=
  if suppliedInvalid accepts start_date then (errorPayload startDateErrMsg, false)
  else if suppliedInvalid accepts end_date then (errorPayload endDateErrMsg, false)
  else searchFetch cfg apiKey keywords language country category start_date
    end_date outcome

/-- `get_latest_news`: default the language (`language or
DEFAULT_LANGUAGE`), fetch, normalize and cap, stamping the retrieval
timestamp (passed in for `datetime.now().isoformat()`). -/
def get_latest_news (cfg : ServerConfig) (apiKey : Option String)
    (language : Option String) (retrievedAt : String)
    (outcome : TransportOutcome) : PyVal × Bool :=
  let lang := match language with
    | Option.some s => if s == "" then cfg.defaultLanguage else s
    | Option.none => cfg.defaultLanguage
  match make_api_request cfg apiKey [("language", lang)] outcome with
  | (Except.error e, att) => (errorPayload e, att)
  | (Except.ok resp, att) =>
    match resp with
    | PyVal.dict kvs =>
      if statusOk (pyGet kvs "status") then
        match pySlice (dictGetD kvs "news" (PyVal.list [])) cfg.maxResults with
        | Except.error e => (errorPayload e, att)
        | Except.ok sliced =>
          match pyIterate sliced with
          | Except.error e => (errorPayload e, att)
          | Except.ok articles =>
            match exceptMapM format_news_article articles with
            | Except.error e => (errorPayload e, att)
            | Except.ok formatted =>
              (PyVal.dict [
                ("status", PyVal.str "success"),
                ("language", PyVal.str lang),
                ("total_results", PyVal.int (formatted.length : Int)),
                ("articles", PyVal.list formatted),
                ("retrieved_at", PyVal.str retrievedAt)], att)
      else (errorPayload "Failed to retrieve latest news", att)
    | v => (errorPayload ("AttributeError: " ++ pyTypeName v ++
        " object has no attribute get"), att)

/-- The cache-hit result of a reference lookup:
`{"status": "success", "source": "cache", field: data}`. -/
def cacheHitPayload (field : String) (d : PyVal) : PyVal :=
  PyVal.dict [("status", PyVal.str "success"), ("source", PyVal.str "cache"), (field, d)]

/-- The fetch-and-store path of `get_available_languages` (cache miss):
on an ok-status response, store the languages under the fixed key and
report them tagged `source: "api"` with their count; the count is
computed after the store, so a `len` failure still leaves the entry
written. -/
def languagesFetch (cfg : ServerConfig) (apiKey : Option String) (cache : Cache)
    (now : Int) (outcome : TransportOutcome) : PyVal × Cache × Bool :=
  match make_api_request cfg apiKey [] outcome with
  | (Except.error e, att) => (errorPayload e, cache, att)
  | (Except.ok resp, att) =>
    match resp with
    | PyVal.dict kvs =>
      if statusOk (pyGet kvs "status") then
        let languages := dictGetD kvs "languages" (PyVal.dict [])
        let cache2 := set_cached_data cache "languages" languages now
        match pyLen languages with
        | Except.ok n =>
          (PyVal.dict [
            ("status", PyVal.str "success"),
            ("source", PyVal.str "api"),
            ("languages", languages),
            ("total_languages", PyVal.int n)], cache2, att)
        | Except.error e => (errorPayload e, cache2, att)
      else (errorPayload "Failed to retrieve supported languages", cache, att)
    | v => (errorPayload ("AttributeError: " ++ pyTypeName v ++
        " object has no attribute get"), cache, att)

/-- `get_available_languages`: serve a truthy cache hit tagged
`source: "cache"`, otherwise fetch from the provider. -/
def get_available_languages (cfg : ServerConfig) (apiKey : Option String)
    (cache : Cache) (now : Int) (outcome : TransportOutcome) :
    PyVal × Cache × Bool :=
  match get_cached_data cache now "languages" with
  | Option.some d =>
    if pyTruthy d then (cacheHitPayload "languages" d, cache, false)
    else languagesFetch cfg apiKey cache now outcome
  | Option.none => languagesFetch cfg apiKey cache now outcome

/-- The fetch-and-store path of `get_available_regions` (cache miss). -/
def regionsFetch (cfg : ServerConfig) (apiKey : Option String) (cache : Cache)
    (now : Int) (outcome : TransportOutcome) : PyVal × Cache × Bool :=
  match make_api_request cfg apiKey [] outcome with
  | (Except.error e, att) => (errorPayload e, cache, att)
  | (Except.ok resp, att) =>
    match resp with
    | PyVal.dict kvs =>
      if statusOk (pyGet kvs "status") then
        let regions := dictGetD kvs "regions" (PyVal.dict [])
        let cache2 := set_cached_data cache "regions" regions now
        match pyLen regions with
        | Except.ok n =>
          (PyVal.dict [
            ("status", PyVal.str "success"),
            ("source", PyVal.str "api"),
            ("regions", regions),
            ("total_regions", PyVal.int n)], cache2, att)
        | Except.error e => (errorPayload e, cache2, att)
      else (errorPayload "Failed to retrieve supported regions", cache, att)
    | v => (errorPayload ("AttributeError: " ++ pyTypeName v ++
        " object has no attribute get"), cache, att)

/-- `get_available_regions`: cache-first reference lookup. -/
def get_available_regions (cfg : ServerConfig) (apiKey : Option String)
    (cache : Cache) (now : Int) (outcome : TransportOutcome) :
    PyVal × Cache × Bool :=
  match get_cached_data cache now "regions" with
  | Option.some d =>
    if pyTruthy d then (cacheHitPayload "regions" d, cache, false)
    else regionsFetch cfg apiKey cache now outcome
  | Option.none => regionsFetch cfg apiKey cache now outcome

/-- The fetch-and-store path of `get_available_categories` (cache miss);
the default for a missing `categories` field is the empty list. -/
def categoriesFetch (cfg : ServerConfig) (apiKey : Option String) (cache : Cache)
    (now : Int) (outcome : TransportOutcome) : PyVal × Cache × Bool :=
  match make_api_request cfg apiKey [] outcome with
  | (Except.error e, att) => (errorPayload e, cache, att)
  | (Except.ok resp, att) =>
    match resp with
    | PyVal.dict kvs =>
      if statusOk (pyGet kvs "status") then
        let categories := dictGetD kvs "categories" (PyVal.list [])
        let cache2 := set_cached_data cache "categories" categories now
        match pyLen categories with
        | Except.ok n =>
          (PyVal.dict [
            ("status", PyVal.str "success"),
            ("source", PyVal.str "api"),
            ("categories", categories),
            ("total_categories", PyVal.int n)], cache2, att)
        | Except.error e => (errorPayload e, cache2, att)
      else (errorPayload "Failed to retrieve supported categories", cache, att)
    | v => (errorPayload ("AttributeError: " ++ pyTypeName v ++
        " object has no attribute get"), cache, att)

/-- `get_available_categories`: cache-first reference lookup. -/
def get_available_categories (cfg : ServerConfig) (apiKey : Option String)
    (cache : Cache) (now : Int) (outcome : TransportOutcome) :
    PyVal × Cache × Bool :=
  match get_cached_data cache now "categories" with
  | Option.some d =>
    if pyTruthy d then (cacheHitPayload "categories" d, cache, false)
    else categoriesFetch cfg apiKey cache now outcome
  | Option.none => categoriesFetch cfg apiKey cache now outcome

/-- The masked credential preview: first 8 characters plus "..." when
the key is longer than 8 characters, otherwise "***". -/
def maskKey (k : String) : String :=
  if 8 < k.length then k.take 8 ++ "..." else "***"

/-- The troubleshooting hints of a failed status check. -/
def statusTroubleshooting : PyVal :=
  PyVal.list [
    PyVal.str "Check internet connection",
    PyVal.str "Verify API key is correct",
    PyVal.str "Check if API service is operational",
    PyVal.str "Ensure no firewall blocking the connection"]

/-- The error result of `check_api_status` when an exception was
caught: the message is prefixed with "API status check failed: ". -/
def statusCheckFailPayload (e : String) : PyVal :=
  PyVal.dict [
    ("status", PyVal.str "error"),
    ("message", PyVal.str ("API status check failed: " ++ e)),
    ("troubleshooting", statusTroubleshooting)]

/-- The error result of `check_api_status` when no credential is
configured: `configuration.api_key_set` is false and setup hints are
included. -/
def noKeyStatusPayload (cfg : ServerConfig) : PyVal :=
  PyVal.dict [
    ("status", PyVal.str "error"),
    ("message", PyVal.str "CURRENTS_API_KEY environment variable not set"),
    ("configuration", PyVal.dict [
      ("api_key_set", PyVal.bool false),
      ("base_url", PyVal.str API_BASE_URL),
      ("timeout", PyVal.int (cfg.timeout : Int)),
      ("default_language", PyVal.str cfg.defaultLanguage),
      ("max_results", PyVal.int (cfg.maxResults : Int))]),
    ("troubleshooting", PyVal.list [
      PyVal.str "Set CURRENTS_API_KEY environment variable",
      PyVal.str "Get free API key from https://currentsapi.services",
      PyVal.str "Ensure API key has proper permissions"])]

/-- The success result of `check_api_status`. -/
def statusSuccessPayload (cfg : ServerConfig) (masked : String) (count : Int)
    (langCached regCached catCached : Bool) : PyVal :=
  PyVal.dict [
    ("status", PyVal.str "success"),
    ("message", PyVal.str "API connection successful"),
    ("configuration", PyVal.dict [
      ("api_key_set", PyVal.bool true),
      ("api_key_masked", PyVal.str masked),
      ("base_url", PyVal.str API_BASE_URL),
      ("timeout", PyVal.int (cfg.timeout : Int)),
      ("default_language", PyVal.str cfg.defaultLanguage),
      ("max_results", PyVal.int (cfg.maxResults : Int))]),
    ("test_result", PyVal.dict [
      ("endpoint_tested", PyVal.str "latest-news"),
      ("response_received", PyVal.bool true),
      ("articles_count", PyVal.int count)]),
    ("cache_status", PyVal.dict [
      ("languages_cached", PyVal.bool langCached),
      ("regions_cached", PyVal.bool regCached),
      ("categories_cached", PyVal.bool catCached)])]

/-- The error result of `check_api_status` when the test request came
back without an ok status. -/
def statusTestFailedPayload (masked : String) : PyVal :=
  PyVal.dict [
    ("status", PyVal.str "error"),
    ("message", PyVal.str "API test failed"),
    ("configuration", PyVal.dict [
      ("api_key_set", PyVal.bool true),
      ("api_key_masked", PyVal.str masked),
      ("base_url", PyVal.str API_BASE_URL)])]

/-- `check_api_status`: with no (or an empty) credential, report the
configuration error without any network call; otherwise probe the
latest-news endpoint and report configuration, test result and per-key
cache validity; every raised error is caught into the
"API status check failed" result. -/
def check_api_status (cfg : ServerConfig) (apiKey : Option String)
    (cache : Cache) (now : Int) (outcome : TransportOutcome) : PyVal × Bool :=
  if optStrTruthy apiKey then
    match make_api_request cfg apiKey [("language", "en")] outcome with
    | (Except.error e, att) => (statusCheckFailPayload e, att)
    | (Except.ok resp, att) =>
      match resp with
      | PyVal.dict kvs =>
        if statusOk (pyGet kvs "status") then
          match pyLen (dictGetD kvs "news" (PyVal.list [])) with
          | Except.ok n =>
            (statusSuccessPayload cfg (maskKey (apiKey.getD "")) n
              (is_cache_valid cache now "languages")
              (is_cache_valid cache now "regions")
              (is_cache_valid cache now "categories"), att)
          | Except.error e => (statusCheckFailPayload e, att)
        else (statusTestFailedPayload (maskKey (apiKey.getD "")), att)
      | v => (statusCheckFailPayload ("AttributeError: " ++ pyTypeName v ++
          " object has no attribute get"), att)
  else (noKeyStatusPayload cfg, false)

/-- Whether a string is a nonempty run of decimal digits. -/
def digitOnly (s : String) : Bool :=
  !(s == "") && s.toList.all Char.isDigit

/-- Split a character list at a separator character. -/
def splitCharsAux (sep : Char) : List Char → List Char → List String
  | [], acc => [String.mk acc.reverse]
  | c :: cs, acc =>
    if c == sep then String.mk acc.reverse :: splitCharsAux sep cs []
    else splitCharsAux sep cs (c :: acc)

/-- Split a string at a separator character (the single-character case
of Python `str.split`). -/
def splitChar (sep : Char) (s : String) : List String :=
  splitCharsAux sep s.toList []

/-- English month-name abbreviations. -/
def monthNamesEn : List String :=
  ["Jan", "Feb", "Mar", "Apr", "May", "Jun",
   "Jul", "Aug", "Sep", "Oct", "Nov", "Dec"]

/-- A month-name date such as "Jan 5 2020": month name, day, year
separated by single spaces. -/
def monthNameDateLike (s : String) : Bool :=
  match splitChar ' ' s with
  | [m, d, y] => monthNamesEn.contains m && digitOnly d && digitOnly y
  | _ => false

/-- A dashed numeric date such as "2020-01-05". -/
def dashedDateLike (s : String) : Bool :=
  match splitChar '-' s with
  | [y, m, d] => digitOnly y && y.length == 4 && digitOnly m && digitOnly d
  | _ => false

/-- Modelled from the spec: the date validation delegates to the
external dateutil parsing library, which is not part of the sources
under src/.  The spec calls the accepted inputs "a recognized
date/time format", which for that library includes month-name forms
such as "Jan 5 2020" in addition to ISO 8601 dates.  This definition
models the acceptance verdict of that external parser on the small
fragment of formats the claims exercise: dashed numeric dates and
month-name dates; strings outside the fragment (such as "not-a-date"
or the empty string) are rejected, as the library rejects them. -/
def dateutil_accepts (s : String) : Bool :=
  dashedDateLike s || monthNameDateLike s

/-- The ISO 8601 shape named by the search format hint
(`YYYY-MM-DDTHH:MM:SS+00:00`, with the date-only form also allowed):
a four-digit year and two-digit month and day, optionally followed by
a "T" and a time part.  This follows the wording of the spec and the
error message, for comparison with what the code accepts. -/
def isISO8601 (s : String) : Bool :=
  match splitChar 'T' s with
  | [d] => isoDatePart d
  | [d, _] => isoDatePart d
  | _ => false
where
  isoDatePart (d : String) : Bool :=
    match splitChar '-' d with
    | [y, m, dd] => digitOnly y && y.length == 4 && digitOnly m &&
        m.length == 2 && digitOnly dd && dd.length == 2
    | _ => false

/-- Overwrite the value stored under a key of a dict payload, leaving
other keys in place.  This formalizes "the same payload tagged
`source: "cache"`" when comparing the two reference-lookup results. -/
def pySetKey : PyVal → String → PyVal → PyVal
  | PyVal.dict kvs, k, v =>
    PyVal.dict (kvs.map (fun p => if p.1 == k then (p.1, v) else p))
  | other, _, _ => other

/-- A concrete ok-status provider body for the languages endpoint. -/
def c2BodyKvs : List (String × PyVal) :=
  [("status", PyVal.str "ok"), ("languages", PyVal.dict [("en", PyVal.str "English")])]

/-- The same body as a value. -/
def c2Body : PyVal := PyVal.dict c2BodyKvs

/-- A first languages lookup against an empty cache at time 0, with the
provider returning `c2Body`. -/
def c2Run1 : PyVal × Cache × Bool :=
  get_available_languages defaultServerConfig (Option.some "key") [] 0
    (TransportOutcome.response 200 c2Body)

/-- A second languages lookup 10 time units later against the cache
left by the first; the transport would time out if consulted. -/
def c2Run2 : PyVal × Cache × Bool :=
  get_available_languages defaultServerConfig (Option.some "key") c2Run1.2.1 10
    TransportOutcome.timeout

/-! ## Shared lemmas -/

theorem cacheLookup_set_same (cache : Cache) (k : String) (v : PyVal) (t : Int) :
    cacheLookup (set_cached_data cache k v t) k = Option.some ⟨v, t⟩ := by
  simp [cacheLookup, set_cached_data, List.find?]

theorem get_cached_set_same (cache : Cache) (k : String) (v : PyVal) (t t2 : Int) :
    get_cached_data (set_cached_data cache k v t) t2 k =
      if t2 - t < CACHE_TTL then Option.some v else Option.none := by
  unfold get_cached_data is_cache_valid
  rw [cacheLookup_set_same]
  by_cases h : t2 - t < CACHE_TTL
  · simp [h]
  · simp [h]

theorem exceptMapM_ok_length {α β : Type} (f : α → Except String β) :
    ∀ (l : List α) (l2 : List β), exceptMapM f l = Except.ok l2 → l2.length = l.length := by
  intro l
  induction l with
  | nil =>
    intro l2 h
    simp only [exceptMapM] at h
    cases h
    rfl
  | cons a as ih =>
    intro l2 h
    simp only [exceptMapM] at h
    cases hf : f a with
    | error e => rw [hf] at h; cases h
    | ok b =>
      rw [hf] at h
      cases hr : exceptMapM f as with
      | error e => rw [hr] at h; cases h
      | ok bs =>
        rw [hr] at h
        cases h
        simp [ih bs hr]

theorem languages_cache_miss (cfg : ServerConfig) (apiKey : Option String)
    (cache : Cache) (now : Int) (outcome : TransportOutcome)
    (h : cacheHitTruthy cache now "languages" = false) :
    get_available_languages cfg apiKey cache now outcome =
      languagesFetch cfg apiKey cache now outcome := by
  unfold get_available_languages
  cases hg : get_cached_data cache now "languages" with
  | none => rfl
  | some d =>
    have hd : pyTruthy d = false := by
      unfold cacheHitTruthy at h
      rw [hg] at h
      exact h
    simp [hd]

theorem regions_cache_miss (cfg : ServerConfig) (apiKey : Option String)
    (cache : Cache) (now : Int) (outcome : TransportOutcome)
    (h : cacheHitTruthy cache now "regions" = false) :
    get_available_regions cfg apiKey cache now outcome =
      regionsFetch cfg apiKey cache now outcome := by
  unfold get_available_regions
  cases hg : get_cached_data cache now "regions" with
  | none => rfl
  | some d =>
    have hd : pyTruthy d = false := by
      unfold cacheHitTruthy at h
      rw [hg] at h
      exact h
    simp [hd]

theorem categories_cache_miss (cfg : ServerConfig) (apiKey : Option String)
    (cache : Cache) (now : Int) (outcome : TransportOutcome)
    (h : cacheHitTruthy cache now "categories" = false) :
    get_available_categories cfg apiKey cache now outcome =
      categoriesFetch cfg apiKey cache now outcome := by
  unfold get_available_categories
  cases hg : get_cached_data cache now "categories" with
  | none => rfl
  | some d =>
    have hd : pyTruthy d = false := by
      unfold cacheHitTruthy at h
      rw [hg] at h
      exact h
    simp [hd]

/-! ## C4: TTL cache semantics -/

/-- C4: for every cache key, `is_cache_valid` holds iff an entry exists
and strictly less than `CACHE_TTL = 300` time units have elapsed since
its stored timestamp; it is false once exactly the TTL has elapsed
after a `set_cached_data`, and true for any elapsed time strictly below
the TTL; `get_cached_data` returns the stored value exactly when the
entry is valid and is otherwise absent. -/
theorem cache_ttl_semantics (cache : Cache) (now : Int) (k : String)
    (v : PyVal) (t d : Int) (hd0 : 0 ≤ d) (hd : d < CACHE_TTL) :
    (is_cache_valid cache now k = true ↔
      ∃ e, cacheLookup cache k = Option.some e ∧ now - e.timestamp < CACHE_TTL)
    ∧ is_cache_valid (set_cached_data cache k v t) (t + CACHE_TTL) k = false
    ∧ is_cache_valid (set_cached_data cache k v t) (t + d) k = true
    ∧ (is_cache_valid cache now k = false → get_cached_data cache now k = Option.none)
    ∧ (is_cache_valid cache now k = true →
        ∃ e, cacheLookup cache k = Option.some e ∧
          get_cached_data cache now k = Option.some e.data) := by
  refine ⟨?_, ?_, ?_, ?_, ?_⟩
  · unfold is_cache_valid
    cases h : cacheLookup cache k with
    | none => simp
    | some e => simp
  · unfold is_cache_valid
    rw [cacheLookup_set_same]
    simp
  · unfold is_cache_valid
    rw [cacheLookup_set_same]
    simp
    omega
  · intro h
    unfold get_cached_data
    simp [h]
  · intro h
    cases he : cacheLookup cache k with
    | none =>
      unfold is_cache_valid at h
      rw [he] at h
      cases h
    | some e =>
      refine ⟨e, rfl, ?_⟩
      unfold get_cached_data
      simp [h, he]

/-- Witness for C4 at a concrete instant: key "languages" set at time 0,
checked at elapsed time 299 (strictly under the TTL). -/
theorem cache_ttl_semantics_witness :
    (0 : Int) ≤ 299 ∧ (299 : Int) < CACHE_TTL ∧
    is_cache_valid (set_cached_data [] "languages" (PyVal.str "x") 0)
      (0 + 299) "languages" = true ∧
    is_cache_valid (set_cached_data [] "languages" (PyVal.str "x") 0)
      (0 + CACHE_TTL) "languages" = false :=
  ⟨by decide, by decide,
    (cache_ttl_semantics [] 0 "languages" (PyVal.str "x") 0 299
      (by decide) (by decide)).2.2.1,
    (cache_ttl_semantics [] 0 "languages" (PyVal.str "x") 0 299
      (by decide) (by decide)).2.1⟩

/-! ## C9: reference lookups write the cache only on an ok-status fetch -/

theorem languagesFetch_cache_write (cfg : ServerConfig) (apiKey : Option String)
    (cache : Cache) (now : Int) (outcome : TransportOutcome) :
    (languagesFetch cfg apiKey cache now outcome).2.1 = cache ∨
    ∃ kvs, (make_api_request cfg apiKey [] outcome).1 = Except.ok (PyVal.dict kvs) ∧
      statusOk (pyGet kvs "status") = true ∧
      (languagesFetch cfg apiKey cache now outcome).2.1 =
        set_cached_data cache "languages" (dictGetD kvs "languages" (PyVal.dict [])) now := by
  unfold languagesFetch
  rcases hm : make_api_request cfg apiKey [] outcome with ⟨api, att⟩
  cases api with
  | error e => exact Or.inl rfl
  | ok resp =>
    cases resp with
    | dict kvs =>
      by_cases hs : statusOk (pyGet kvs "status") = true
      · refine Or.inr ⟨kvs, rfl, hs, ?_⟩
        cases hl : pyLen (dictGetD kvs "languages" (PyVal.dict [])) with
        | ok n => simp [hs, hl]
        | error e => simp [hs, hl]
      · simp [hs]
    | none => exact Or.inl rfl
    | bool b => exact Or.inl rfl
    | int n => exact Or.inl rfl
    | str s => exact Or.inl rfl
    | list xs => exact Or.inl rfl

theorem regionsFetch_cache_write (cfg : ServerConfig) (apiKey : Option String)
    (cache : Cache) (now : Int) (outcome : TransportOutcome) :
    (regionsFetch cfg apiKey cache now outcome).2.1 = cache ∨
    ∃ kvs, (make_api_request cfg apiKey [] outcome).1 = Except.ok (PyVal.dict kvs) ∧
      statusOk (pyGet kvs "status") = true ∧
      (regionsFetch cfg apiKey cache now outcome).2.1 =
        set_cached_data cache "regions" (dictGetD kvs "regions" (PyVal.dict [])) now := by
  unfold regionsFetch
  rcases hm : make_api_request cfg apiKey [] outcome with ⟨api, att⟩
  cases api with
  | error e => exact Or.inl rfl
  | ok resp =>
    cases resp with
    | dict kvs =>
      by_cases hs : statusOk (pyGet kvs "status") = true
      · refine Or.inr ⟨kvs, rfl, hs, ?_⟩
        cases hl : pyLen (dictGetD kvs "regions" (PyVal.dict [])) with
        | ok n => simp [hs, hl]
        | error e => simp [hs, hl]
      · simp [hs]
    | none => exact Or.inl rfl
    | bool b => exact Or.inl rfl
    | int n => exact Or.inl rfl
    | str s => exact Or.inl rfl
    | list xs => exact Or.inl rfl

theorem categoriesFetch_cache_write (cfg : ServerConfig) (apiKey : Option String)
    (cache : Cache) (now : Int) (outcome : TransportOutcome) :
    (categoriesFetch cfg apiKey cache now outcome).2.1 = cache ∨
    ∃ kvs, (make_api_request cfg apiKey [] outcome).1 = Except.ok (PyVal.dict kvs) ∧
      statusOk (pyGet kvs "status") = true ∧
      (categoriesFetch cfg apiKey cache now outcome).2.1 =
        set_cached_data cache "categories" (dictGetD kvs "categories" (PyVal.list [])) now := by
  unfold categoriesFetch
  rcases hm : make_api_request cfg apiKey [] outcome with ⟨api, att⟩
  cases api with
  | error e => exact Or.inl rfl
  | ok resp =>
    cases resp with
    | dict kvs =>
      by_cases hs : statusOk (pyGet kvs "status") = true
      · refine Or.inr ⟨kvs, rfl, hs, ?_⟩
        cases hl : pyLen (dictGetD kvs "categories" (PyVal.list [])) with
        | ok n => simp [hs, hl]
        | error e => simp [hs, hl]
      · simp [hs]
    | none => exact Or.inl rfl
    | bool b => exact Or.inl rfl
    | int n => exact Or.inl rfl
    | str s => exact Or.inl rfl
    | list xs => exact Or.inl rfl

theorem get_available_languages_cache_write (cfg : ServerConfig)
    (apiKey : Option String) (cache : Cache) (now : Int)
    (outcome : TransportOutcome) :
    (get_available_languages cfg apiKey cache now outcome).2.1 = cache ∨
    ∃ kvs, (make_api_request cfg apiKey [] outcome).1 = Except.ok (PyVal.dict kvs) ∧
      statusOk (pyGet kvs "status") = true ∧
      (get_available_languages cfg apiKey cache now outcome).2.1 =
        set_cached_data cache "languages" (dictGetD kvs "languages" (PyVal.dict [])) now := by
  unfold get_available_languages
  cases hg : get_cached_data cache now "languages" with
  | none => exact languagesFetch_cache_write cfg apiKey cache now outcome
  | some d =>
    by_cases hd : pyTruthy d = true
    · simp [hd]
    · simp only [Bool.not_eq_true] at hd
      simp only [hd, if_false]
      exact languagesFetch_cache_write cfg apiKey cache now outcome

theorem get_available_regions_cache_write (cfg : ServerConfig)
    (apiKey : Option String) (cache : Cache) (now : Int)
    (outcome : TransportOutcome) :
    (get_available_regions cfg apiKey cache now outcome).2.1 = cache ∨
    ∃ kvs, (make_api_request cfg apiKey [] outcome).1 = Except.ok (PyVal.dict kvs) ∧
      statusOk (pyGet kvs "status") = true ∧
      (get_available_regions cfg apiKey cache now outcome).2.1 =
        set_cached_data cache "regions" (dictGetD kvs "regions" (PyVal.dict [])) now := by
  unfold get_available_regions
  cases hg : get_cached_data cache now "regions" with
  | none => exact regionsFetch_cache_write cfg apiKey cache now outcome
  | some d =>
    by_cases hd : pyTruthy d = true
    · simp [hd]
    · simp only [Bool.not_eq_true] at hd
      simp only [hd, if_false]
      exact regionsFetch_cache_write cfg apiKey cache now outcome

theorem get_available_categories_cache_write (cfg : ServerConfig)
    (apiKey : Option String) (cache : Cache) (now : Int)
    (outcome : TransportOutcome) :
    (get_available_categories cfg apiKey cache now outcome).2.1 = cache ∨
    ∃ kvs, (make_api_request cfg apiKey [] outcome).1 = Except.ok (PyVal.dict kvs) ∧
      statusOk (pyGet kvs "status") = true ∧
      (get_available_categories cfg apiKey cache now outcome).2.1 =
        set_cached_data cache "categories" (dictGetD kvs "categories" (PyVal.list [])) now := by
  unfold get_available_categories
  cases hg : get_cached_data cache now "categories" with
  | none => exact categoriesFetch_cache_write cfg apiKey cache now outcome
  | some d =>
    by_cases hd : pyTruthy d = true
    · simp [hd]
    · simp only [Bool.not_eq_true] at hd
      simp only [hd, if_false]
      exact categoriesFetch_cache_write cfg apiKey cache now outcome

/-- C9: for each reference lookup (languages, regions, categories), the
operation either leaves the cache unchanged or the provider call
returned a decoded dict whose status field is "ok", and the cache
update is exactly one `set_cached_data` of the extracted reference data
under the fixed key.  In particular every failure path — a raised error
(missing credential, HTTP error, timeout, network failure) or a
response whose status is not "ok" — leaves the cache unchanged. -/
theorem reference_cache_write_discipline (cfg : ServerConfig)
    (apiKey : Option String) (cache : Cache) (now : Int)
    (outcome : TransportOutcome) :
    ((get_available_languages cfg apiKey cache now outcome).2.1 = cache ∨
      ∃ kvs, (make_api_request cfg apiKey [] outcome).1 = Except.ok (PyVal.dict kvs) ∧
        statusOk (pyGet kvs "status") = true ∧
        (get_available_languages cfg apiKey cache now outcome).2.1 =
          set_cached_data cache "languages" (dictGetD kvs "languages" (PyVal.dict [])) now)
    ∧ ((get_available_regions cfg apiKey cache now outcome).2.1 = cache ∨
      ∃ kvs, (make_api_request cfg apiKey [] outcome).1 = Except.ok (PyVal.dict kvs) ∧
        statusOk (pyGet kvs "status") = true ∧
        (get_available_regions cfg apiKey cache now outcome).2.1 =
          set_cached_data cache "regions" (dictGetD kvs "regions" (PyVal.dict [])) now)
    ∧ ((get_available_categories cfg apiKey cache now outcome).2.1 = cache ∨
      ∃ kvs, (make_api_request cfg apiKey [] outcome).1 = Except.ok (PyVal.dict kvs) ∧
        statusOk (pyGet kvs "status") = true ∧
        (get_available_categories cfg apiKey cache now outcome).2.1 =
          set_cached_data cache "categories" (dictGetD kvs "categories" (PyVal.list [])) now) :=
  ⟨get_available_languages_cache_write cfg apiKey cache now outcome,
   get_available_regions_cache_write cfg apiKey cache now outcome,
   get_available_categories_cache_write cfg apiKey cache now outcome⟩

/-! ## C1: totality of the response normalizer -/

/-- C1 counterexample: an article whose "title" field is present but
holds `None` makes `format_news_article` fail — `.get("title", "")`
returns the stored `None` (the default applies only to a missing key)
and `.strip()` raises `AttributeError`.  So the normalizer is not a
total function over mapping-like inputs. -/
theorem format_news_article_fails_on_none_title :
    format_news_article (PyVal.dict [("title", PyVal.none)]) =
      Except.error "AttributeError: NoneType object has no attribute strip" := by
  rfl

/-- C1 (amended): `format_news_article` returns a result for every
mapping-like input whose title and description fields, when present,
hold strings (in particular whenever those fields are simply missing,
the defaults apply and no failure is possible). -/
theorem format_news_article_total_on_string_fields (kvs : List (String × PyVal))
    (ht : ∀ v, pyGet kvs "title" = Option.some v → ∃ s, v = PyVal.str s)
    (hd : ∀ v, pyGet kvs "description" = Option.some v → ∃ s, v = PyVal.str s) :
    ∃ out, format_news_article (PyVal.dict kvs) = Except.ok out := by
  have h1 : ∃ s1, dictGetD kvs "title" (PyVal.str "") = PyVal.str s1 := by
    unfold dictGetD
    cases hg : pyGet kvs "title" with
    | none => exact ⟨"", rfl⟩
    | some v =>
      obtain ⟨s, hs⟩ := ht v hg
      exact ⟨s, hs⟩
  have h2 : ∃ s2, dictGetD kvs "description" (PyVal.str "") = PyVal.str s2 := by
    unfold dictGetD
    cases hg : pyGet kvs "description" with
    | none => exact ⟨"", rfl⟩
    | some v =>
      obtain ⟨s, hs⟩ := hd v hg
      exact ⟨s, hs⟩
  obtain ⟨s1, h1⟩ := h1
  obtain ⟨s2, h2⟩ := h2
  show ∃ out, format_news_article_fields kvs = Except.ok out
  unfold format_news_article_fields
  rw [h1, h2]
  exact ⟨_, rfl⟩

/-- Witness for the amended C1 at a concrete article that has no title
or description fields at all. -/
theorem format_news_article_total_on_string_fields_witness :
    ∃ out, format_news_article (PyVal.dict [("author", PyVal.str "a")]) =
      Except.ok out :=
  format_news_article_total_on_string_fields [("author", PyVal.str "a")]
    (fun v h => Option.noConfusion h) (fun v h => Option.noConfusion h)

/-! ## C8: normalizer field defaults -/

/-- C8: whenever `format_news_article` produces a normalized article,
the output has author "Unknown" when the raw author field is absent,
a null image when the raw image field equals the sentinel string
"None", an empty category sequence when the raw field is absent, title
and description trimmed of surrounding whitespace, and the fixed
source literal "Currents API". -/
theorem format_news_article_field_defaults (kvs : List (String × PyVal))
    (out : PyVal) (h : format_news_article (PyVal.dict kvs) = Except.ok out) :
    (pyGet kvs "author" = Option.none →
      pyGetKey out "author" = Option.some (PyVal.str "Unknown"))
    ∧ (pyGet kvs "image" = Option.some (PyVal.str "None") →
      pyGetKey out "image" = Option.some PyVal.none)
    ∧ (pyGet kvs "category" = Option.none →
      pyGetKey out "category" = Option.some (PyVal.list []))
    ∧ (∀ s, pyGet kvs "title" = Option.some (PyVal.str s) →
      pyGetKey out "title" = Option.some (PyVal.str (pyStripStr s)))
    ∧ (∀ s, pyGet kvs "description" = Option.some (PyVal.str s) →
      pyGetKey out "description" = Option.some (PyVal.str (pyStripStr s)))
    ∧ pyGetKey out "source" = Option.some (PyVal.str "Currents API") := by
  have hf : format_news_article_fields kvs = Except.ok out := h
  unfold format_news_article_fields at hf
  cases h1 : pyStrip (dictGetD kvs "title" (PyVal.str "")) with
  | error e => rw [h1] at hf; cases hf
  | ok title =>
    rw [h1] at hf
    cases h2 : pyStrip (dictGetD kvs "description" (PyVal.str "")) with
    | error e => rw [h2] at hf; cases hf
    | ok descr =>
      rw [h2] at hf
      cases hf
      refine ⟨?_, ?_, ?_, ?_, ?_, ?_⟩
      · intro ha
        simp only [pyGet] at ha
        simp [pyGetKey, pyGet, List.find?, dictGetD, ha]
      · intro hi
        simp only [pyGet] at hi
        simp [pyGetKey, pyGet, List.find?, dictGetD, hi, imageField, isNoneSentinel]
      · intro hc
        simp only [pyGet] at hc
        simp [pyGetKey, pyGet, List.find?, dictGetD, hc]
      · intro s hts
        have he : dictGetD kvs "title" (PyVal.str "") = PyVal.str s := by
          unfold dictGetD
          rw [hts]
          rfl
        rw [he] at h1
        simp [pyStrip] at h1
        simp [pyGetKey, pyGet, List.find?, ← h1]
      · intro s hds
        have he : dictGetD kvs "description" (PyVal.str "") = PyVal.str s := by
          unfold dictGetD
          rw [hds]
          rfl
        rw [he] at h2
        simp [pyStrip] at h2
        simp [pyGetKey, pyGet, List.find?, ← h2]
      · simp [pyGetKey, pyGet, List.find?]

/-- A concrete raw article used by the witnesses: present title with
surrounding whitespace, sentinel image, absent author and category. -/
def sampleArticleKvs : List (String × PyVal) :=
  [("title", PyVal.str " Headline "), ("image", PyVal.str "None")]

/-- The normalized form of `sampleArticleKvs`. -/
def sampleFormatted : PyVal :=
  PyVal.dict [
    ("id", PyVal.str ""),
    ("title", PyVal.str "Headline"),
    ("description", PyVal.str ""),
    ("url", PyVal.str ""),
    ("author", PyVal.str "Unknown"),
    ("image", PyVal.none),
    ("language", PyVal.str ""),
    ("category", PyVal.list []),
    ("published", PyVal.str ""),
    ("source", PyVal.str "Currents API")]

/-- Witness for C8 at the concrete article. -/
theorem format_news_article_field_defaults_witness :
    pyGetKey sampleFormatted "author" = Option.some (PyVal.str "Unknown") ∧
    pyGetKey sampleFormatted "image" = Option.some PyVal.none ∧
    pyGetKey sampleFormatted "title" =
      Option.some (PyVal.str (pyStripStr " Headline ")) ∧
    pyGetKey sampleFormatted "source" = Option.some (PyVal.str "Currents API") :=
  ⟨(format_news_article_field_defaults sampleArticleKvs sampleFormatted rfl).1
      rfl,
   (format_news_article_field_defaults sampleArticleKvs sampleFormatted rfl).2.1
      rfl,
   (format_news_article_field_defaults sampleArticleKvs
      sampleFormatted rfl).2.2.2.1 " Headline " rfl,
   (format_news_article_field_defaults sampleArticleKvs
      sampleFormatted rfl).2.2.2.2.2⟩

/-! ## C6: missing credential fails before any network call -/

/-- C6: whenever no credential is configured (the environment variable
is unset or empty), `make_api_request` fails with the configuration
error and the network-attempted flag false, for every endpoint and
transport behavior; and `check_api_status` returns the error-tagged
configuration payload with `configuration.api_key_set = false`, also
without attempting a network call. -/
theorem missing_key_no_network (cfg : ServerConfig) (apiKey : Option String)
    (params : List (String × String)) (outcome : TransportOutcome)
    (cache : Cache) (now : Int) (hk : optStrTruthy apiKey = false) :
    make_api_request cfg apiKey params outcome = (Except.error missingKeyMsg, false)
    ∧ check_api_status cfg apiKey cache now outcome = (noKeyStatusPayload cfg, false)
    ∧ pyGetKey (noKeyStatusPayload cfg) "status" = Option.some (PyVal.str "error")
    ∧ ((pyGetKey (noKeyStatusPayload cfg) "configuration").bind
        (fun c => pyGetKey c "api_key_set")) = Option.some (PyVal.bool false) := by
  refine ⟨?_, ?_, ?_, ?_⟩
  · unfold make_api_request
    simp [hk]
  · unfold check_api_status
    simp [hk]
  · simp [noKeyStatusPayload, pyGetKey, pyGet, List.find?]
  · simp [noKeyStatusPayload, pyGetKey, pyGet, List.find?]

/-- Witness for C6 with the credential entirely absent. -/
theorem missing_key_no_network_witness :
    make_api_request defaultServerConfig Option.none [] TransportOutcome.timeout =
      (Except.error missingKeyMsg, false)
    ∧ check_api_status defaultServerConfig Option.none [] 0
        TransportOutcome.timeout = (noKeyStatusPayload defaultServerConfig, false) :=
  ⟨(missing_key_no_network defaultServerConfig Option.none [] TransportOutcome.timeout
      [] 0 rfl).1,
   (missing_key_no_network defaultServerConfig Option.none [] TransportOutcome.timeout
      [] 0 rfl).2.1⟩

/-! ## C5: classification of provider failures -/

theorem search_news_valid_dates (cfg : ServerConfig) (accepts : String → Bool)
    (apiKey : Option String) (kw lang country cat sd ed : Option String)
    (outcome : TransportOutcome) (hsd : suppliedInvalid accepts sd = false)
    (hed : suppliedInvalid accepts ed = false) :
    search_news cfg accepts apiKey kw lang country cat sd ed outcome =
      searchFetch cfg apiKey kw lang country cat sd ed outcome := by
  unfold search_news
  simp [hsd, hed]

theorem searchFetch_provider_error (cfg : ServerConfig) (apiKey : Option String)
    (kw lang country cat sd ed : Option String) (outcome : TransportOutcome)
    (e : String)
    (h : ∀ p, make_api_request cfg apiKey p outcome = (Except.error e, true)) :
    searchFetch cfg apiKey kw lang country cat sd ed outcome =
      (errorPayload e, true) := by
  unfold searchFetch
  rw [h]

theorem get_latest_news_provider_error (cfg : ServerConfig)
    (apiKey : Option String) (language : Option String) (retrievedAt : String)
    (outcome : TransportOutcome) (e : String)
    (h : ∀ p, make_api_request cfg apiKey p outcome = (Except.error e, true)) :
    get_latest_news cfg apiKey language retrievedAt outcome =
      (errorPayload e, true) := by
  unfold get_latest_news
  simp only [h]

theorem languagesFetch_provider_error (cfg : ServerConfig)
    (apiKey : Option String) (cache : Cache) (now : Int)
    (outcome : TransportOutcome) (e : String)
    (h : ∀ p, make_api_request cfg apiKey p outcome = (Except.error e, true)) :
    languagesFetch cfg apiKey cache now outcome = (errorPayload e, cache, true) := by
  unfold languagesFetch
  rw [h]

theorem regionsFetch_provider_error (cfg : ServerConfig)
    (apiKey : Option String) (cache : Cache) (now : Int)
    (outcome : TransportOutcome) (e : String)
    (h : ∀ p, make_api_request cfg apiKey p outcome = (Except.error e, true)) :
    regionsFetch cfg apiKey cache now outcome = (errorPayload e, cache, true) := by
  unfold regionsFetch
  rw [h]

theorem categoriesFetch_provider_error (cfg : ServerConfig)
    (apiKey : Option String) (cache : Cache) (now : Int)
    (outcome : TransportOutcome) (e : String)
    (h : ∀ p, make_api_request cfg apiKey p outcome = (Except.error e, true)) :
    categoriesFetch cfg apiKey cache now outcome = (errorPayload e, cache, true) := by
  unfold categoriesFetch
  rw [h]

theorem check_api_status_provider_error (cfg : ServerConfig)
    (apiKey : Option String) (cache : Cache) (now : Int)
    (outcome : TransportOutcome) (e : String) (hk : optStrTruthy apiKey = true)
    (h : ∀ p, make_api_request cfg apiKey p outcome = (Except.error e, true)) :
    check_api_status cfg apiKey cache now outcome =
      (statusCheckFailPayload e, true) := by
  unfold check_api_status
  simp [hk, h]

/-- C5: for every operation invocation that reaches the provider (the
credential is set; for search the supplied dates pass validation; for
the reference lookups the cache misses), an upstream HTTP 429 yields
the error-tagged result carrying the rate-limit message naming 600
requests per hour, an HTTP 401 yields the invalid-credential message,
and a transport timeout yields the message naming the configured
timeout duration.  `check_api_status` wraps the same messages in its
"API status check failed: " result. -/
theorem provider_error_results (cfg : ServerConfig) (accepts : String → Bool)
    (apiKey : Option String) (kw lang country cat sd ed language2 : Option String)
    (retrievedAt : String) (cache : Cache) (now : Int) (body body2 : PyVal)
    (hk : optStrTruthy apiKey = true)
    (hsd : suppliedInvalid accepts sd = false)
    (hed : suppliedInvalid accepts ed = false)
    (hmL : cacheHitTruthy cache now "languages" = false)
    (hmR : cacheHitTruthy cache now "regions" = false)
    (hmC : cacheHitTruthy cache now "categories" = false) :
    (search_news cfg accepts apiKey kw lang country cat sd ed
        (TransportOutcome.response 429 body) = (errorPayload rateLimitMsg, true)
      ∧ get_latest_news cfg apiKey language2 retrievedAt
        (TransportOutcome.response 429 body) = (errorPayload rateLimitMsg, true)
      ∧ get_available_languages cfg apiKey cache now
        (TransportOutcome.response 429 body) = (errorPayload rateLimitMsg, cache, true)
      ∧ get_available_regions cfg apiKey cache now
        (TransportOutcome.response 429 body) = (errorPayload rateLimitMsg, cache, true)
      ∧ get_available_categories cfg apiKey cache now
        (TransportOutcome.response 429 body) = (errorPayload rateLimitMsg, cache, true)
      ∧ check_api_status cfg apiKey cache now
        (TransportOutcome.response 429 body) = (statusCheckFailPayload rateLimitMsg, true))
    ∧ (search_news cfg accepts apiKey kw lang country cat sd ed
        (TransportOutcome.response 401 body2) = (errorPayload invalidKeyMsg, true)
      ∧ get_latest_news cfg apiKey language2 retrievedAt
        (TransportOutcome.response 401 body2) = (errorPayload invalidKeyMsg, true)
      ∧ get_available_languages cfg apiKey cache now
        (TransportOutcome.response 401 body2) = (errorPayload invalidKeyMsg, cache, true)
      ∧ get_available_regions cfg apiKey cache now
        (TransportOutcome.response 401 body2) = (errorPayload invalidKeyMsg, cache, true)
      ∧ get_available_categories cfg apiKey cache now
        (TransportOutcome.response 401 body2) = (errorPayload invalidKeyMsg, cache, true)
      ∧ check_api_status cfg apiKey cache now
        (TransportOutcome.response 401 body2) = (statusCheckFailPayload invalidKeyMsg, true))
    ∧ (search_news cfg accepts apiKey kw lang country cat sd ed
        TransportOutcome.timeout = (errorPayload (timeoutMsg cfg), true)
      ∧ get_latest_news cfg apiKey language2 retrievedAt
        TransportOutcome.timeout = (errorPayload (timeoutMsg cfg), true)
      ∧ get_available_languages cfg apiKey cache now
        TransportOutcome.timeout = (errorPayload (timeoutMsg cfg), cache, true)
      ∧ get_available_regions cfg apiKey cache now
        TransportOutcome.timeout = (errorPayload (timeoutMsg cfg), cache, true)
      ∧ get_available_categories cfg apiKey cache now
        TransportOutcome.timeout = (errorPayload (timeoutMsg cfg), cache, true)
      ∧ check_api_status cfg apiKey cache now
        TransportOutcome.timeout = (statusCheckFailPayload (timeoutMsg cfg), true))
    ∧ rateLimitMsg = "Rate limit exceeded. Free tier allows 600 requests per hour."
    ∧ invalidKeyMsg = "Invalid API key. Please check your CURRENTS_API_KEY."
    ∧ timeoutMsg cfg = "Request timeout after " ++ toString cfg.timeout ++ " seconds" := by
  have h429 : ∀ p, make_api_request cfg apiKey p (TransportOutcome.response 429 body) =
      (Except.error rateLimitMsg, true) := by
    intro p
    unfold make_api_request
    simp [hk]
  have h401 : ∀ p, make_api_request cfg apiKey p (TransportOutcome.response 401 body2) =
      (Except.error invalidKeyMsg, true) := by
    intro p
    unfold make_api_request
    simp [hk]
  have hto : ∀ p, make_api_request cfg apiKey p TransportOutcome.timeout =
      (Except.error (timeoutMsg cfg), true) := by
    intro p
    unfold make_api_request
    simp [hk]
  refine ⟨⟨?_, ?_, ?_, ?_, ?_, ?_⟩, ⟨?_, ?_, ?_, ?_, ?_, ?_⟩,
    ⟨?_, ?_, ?_, ?_, ?_, ?_⟩, rfl, rfl, rfl⟩
  · rw [search_news_valid_dates cfg accepts apiKey kw lang country cat sd ed _ hsd hed]
    exact searchFetch_provider_error cfg apiKey kw lang country cat sd ed _ _ h429
  · exact get_latest_news_provider_error cfg apiKey language2 retrievedAt _ _ h429
  · rw [languages_cache_miss cfg apiKey cache now _ hmL]
    exact languagesFetch_provider_error cfg apiKey cache now _ _ h429
  · rw [regions_cache_miss cfg apiKey cache now _ hmR]
    exact regionsFetch_provider_error cfg apiKey cache now _ _ h429
  · rw [categories_cache_miss cfg apiKey cache now _ hmC]
    exact categoriesFetch_provider_error cfg apiKey cache now _ _ h429
  · exact check_api_status_provider_error cfg apiKey cache now _ _ hk h429
  · rw [search_news_valid_dates cfg accepts apiKey kw lang country cat sd ed _ hsd hed]
    exact searchFetch_provider_error cfg apiKey kw lang country cat sd ed _ _ h401
  · exact get_latest_news_provider_error cfg apiKey language2 retrievedAt _ _ h401
  · rw [languages_cache_miss cfg apiKey cache now _ hmL]
    exact languagesFetch_provider_error cfg apiKey cache now _ _ h401
  · rw [regions_cache_miss cfg apiKey cache now _ hmR]
    exact regionsFetch_provider_error cfg apiKey cache now _ _ h401
  · rw [categories_cache_miss cfg apiKey cache now _ hmC]
    exact categoriesFetch_provider_error cfg apiKey cache now _ _ h401
  · exact check_api_status_provider_error cfg apiKey cache now _ _ hk h401
  · rw [search_news_valid_dates cfg accepts apiKey kw lang country cat sd ed _ hsd hed]
    exact searchFetch_provider_error cfg apiKey kw lang country cat sd ed _ _ hto
  · exact get_latest_news_provider_error cfg apiKey language2 retrievedAt _ _ hto
  · rw [languages_cache_miss cfg apiKey cache now _ hmL]
    exact languagesFetch_provider_error cfg apiKey cache now _ _ hto
  · rw [regions_cache_miss cfg apiKey cache now _ hmR]
    exact regionsFetch_provider_error cfg apiKey cache now _ _ hto
  · rw [categories_cache_miss cfg apiKey cache now _ hmC]
    exact categoriesFetch_provider_error cfg apiKey cache now _ _ hto
  · exact check_api_status_provider_error cfg apiKey cache now _ _ hk hto

/-- Witness for C5: a concrete configured key, empty cache, no search
filters. -/
theorem provider_error_results_witness :
    search_news defaultServerConfig (fun _ => true) (Option.some "key")
      Option.none Option.none Option.none Option.none Option.none Option.none
      (TransportOutcome.response 429 PyVal.none) = (errorPayload rateLimitMsg, true)
    ∧ check_api_status defaultServerConfig (Option.some "key") [] 0
      TransportOutcome.timeout =
        (statusCheckFailPayload (timeoutMsg defaultServerConfig), true) :=
  ⟨(provider_error_results defaultServerConfig (fun _ => true) (Option.some "key")
      Option.none Option.none Option.none Option.none Option.none Option.none
      Option.none "t" [] 0 PyVal.none PyVal.none rfl rfl rfl rfl rfl rfl).1.1,
   (provider_error_results defaultServerConfig (fun _ => true) (Option.some "key")
      Option.none Option.none Option.none Option.none Option.none Option.none
      Option.none "t" [] 0 PyVal.none PyVal.none rfl rfl rfl rfl rfl rfl).2.2.1.2.2.2.2.2⟩

/-! ## C3: malformed search dates are rejected without a network call -/

/-- C3 counterexample: the empty string is a supplied `start_date` that
does not parse as any date, yet because the truthiness guard
`if start_date and not validate_date_format(start_date)` treats the
empty string as not supplied, `search_news` neither error-tags the
result nor skips the network call: it proceeds to the provider and
returns a success result. -/
theorem search_empty_start_date_reaches_network :
    validate_date_format dateutil_accepts "" = false
    ∧ (search_news defaultServerConfig dateutil_accepts (Option.some "key")
        Option.none Option.none Option.none Option.none (Option.some "")
        Option.none (TransportOutcome.response 200
          (PyVal.dict [("status", PyVal.str "ok"), ("news", PyVal.list [])]))).2
        = true
    ∧ pyGetKey (search_news defaultServerConfig dateutil_accepts (Option.some "key")
        Option.none Option.none Option.none Option.none (Option.some "")
        Option.none (TransportOutcome.response 200
          (PyVal.dict [("status", PyVal.str "ok"), ("news", PyVal.list [])]))).1
        "status" = Option.some (PyVal.str "success") :=
  ⟨rfl, rfl, rfl⟩

/-- C3 (amended): for every search invocation where a supplied
non-empty `start_date` or `end_date` fails date validation, the result
is error-tagged with the corresponding format-hint message and no
outbound network call is made. -/
theorem search_invalid_date_rejected (cfg : ServerConfig)
    (accepts : String → Bool) (apiKey : Option String)
    (kw lang country cat sd ed : Option String) (outcome : TransportOutcome)
    (s : String) (hne : ¬(s = "")) (hrej : accepts s = false)
    (hsupplied : sd = Option.some s ∨ ed = Option.some s) :
    ((search_news cfg accepts apiKey kw lang country cat sd ed outcome).1 =
        errorPayload startDateErrMsg ∨
      (search_news cfg accepts apiKey kw lang country cat sd ed outcome).1 =
        errorPayload endDateErrMsg)
    ∧ (search_news cfg accepts apiKey kw lang country cat sd ed outcome).2 =
        false := by
  have hbe : (s == "") = false := by
    simpa using hne
  have hinv : suppliedInvalid accepts (Option.some s) = true := by
    unfold suppliedInvalid validate_date_format
    simp [hbe, hrej]
  rcases hsupplied with h | h
  · subst h
    unfold search_news
    simp [hinv]
  · subst h
    unfold search_news
    by_cases hsd : suppliedInvalid accepts sd = true
    · simp [hsd]
    · simp only [Bool.not_eq_true] at hsd
      simp [hsd, hinv]

/-- Witness for the amended C3 at the malformed date "not-a-date". -/
theorem search_invalid_date_rejected_witness :
    ((search_news defaultServerConfig dateutil_accepts (Option.some "key")
        Option.none Option.none Option.none Option.none
        (Option.some "not-a-date") Option.none TransportOutcome.timeout).1 =
        errorPayload startDateErrMsg ∨
      (search_news defaultServerConfig dateutil_accepts (Option.some "key")
        Option.none Option.none Option.none Option.none
        (Option.some "not-a-date") Option.none TransportOutcome.timeout).1 =
        errorPayload endDateErrMsg)
    ∧ (search_news defaultServerConfig dateutil_accepts (Option.some "key")
        Option.none Option.none Option.none Option.none
        (Option.some "not-a-date") Option.none TransportOutcome.timeout).2 =
        false :=
  search_invalid_date_rejected defaultServerConfig dateutil_accepts
    (Option.some "key") Option.none Option.none Option.none Option.none
    (Option.some "not-a-date") Option.none TransportOutcome.timeout
    "not-a-date" (by decide) rfl (Or.inl rfl)

/-! ## C10: the validator accepts non-ISO dates -/

/-- C10: "Jan 5 2020" is not in the ISO 8601 shape named by the format
hint, yet the date parser accepts it, so `search_news` accepts it as a
`start_date`, builds the outbound query parameters containing it, and
makes the network call instead of returning the format-error result. -/
theorem validate_accepts_non_iso_date :
    validate_date_format dateutil_accepts "Jan 5 2020" = true
    ∧ isISO8601 "Jan 5 2020" = false
    ∧ buildSearchParams Option.none Option.none Option.none Option.none
        (Option.some "Jan 5 2020") Option.none = [("start_date", "Jan 5 2020")]
    ∧ (search_news defaultServerConfig dateutil_accepts (Option.some "key")
        Option.none Option.none Option.none Option.none
        (Option.some "Jan 5 2020") Option.none (TransportOutcome.response 200
          (PyVal.dict [("status", PyVal.str "ok"), ("news", PyVal.list [])]))).2
        = true
    ∧ pyGetKey (search_news defaultServerConfig dateutil_accepts
        (Option.some "key") Option.none Option.none Option.none Option.none
        (Option.some "Jan 5 2020") Option.none (TransportOutcome.response 200
          (PyVal.dict [("status", PyVal.str "ok"), ("news", PyVal.list [])]))).1
        "status" = Option.some (PyVal.str "success") :=
  ⟨rfl, rfl, rfl, rfl, rfl⟩

/-! ## C7: successful searches cap results and echo parameters -/

/-- C7 counterexample: with absent (hence valid) dates and a provider
response with status ok containing one article, the result is not a
success payload with min(1, MAX_RESULTS) = 1 normalized articles: the
article's None-valued title makes normalization raise inside the
comprehension, and the whole operation returns the error-tagged
payload instead. -/
theorem search_ok_response_can_fail_normalization :
    (search_news defaultServerConfig dateutil_accepts (Option.some "key")
      Option.none Option.none Option.none Option.none Option.none Option.none
      (TransportOutcome.response 200 (PyVal.dict [
        ("status", PyVal.str "ok"),
        ("news", PyVal.list [PyVal.dict [("title", PyVal.none)]])]))).1 =
      errorPayload "AttributeError: NoneType object has no attribute strip" :=
  rfl

/-- C7 (amended): for every search invocation whose supplied dates pass
validation, when the provider responds with status ok and a list of n
articles that all normalize successfully, the result is a success
payload containing exactly min(n, MAX_RESULTS) normalized articles and
echoing the original filter parameters verbatim under `search_params`. -/
theorem search_success_caps_and_echoes (cfg : ServerConfig)
    (accepts : String → Bool) (apiKey : Option String)
    (kw lang country cat sd ed : Option String) (outcome : TransportOutcome)
    (kvs : List (String × PyVal)) (articles formatted : List PyVal) (att : Bool)
    (hsd : suppliedInvalid accepts sd = false)
    (hed : suppliedInvalid accepts ed = false)
    (hreq : make_api_request cfg apiKey
      (buildSearchParams kw lang country cat sd ed) outcome =
      (Except.ok (PyVal.dict kvs), att))
    (hst : statusOk (pyGet kvs "status") = true)
    (hnews : dictGetD kvs "news" (PyVal.list []) = PyVal.list articles)
    (hfmt : exceptMapM format_news_article (articles.take cfg.maxResults) =
      Except.ok formatted) :
    (search_news cfg accepts apiKey kw lang country cat sd ed outcome).1 =
      PyVal.dict [
        ("status", PyVal.str "success"),
        ("total_results", PyVal.int (formatted.length : Int)),
        ("articles", PyVal.list formatted),
        ("search_params", searchParamsEcho kw lang country cat sd ed)]
    ∧ formatted.length = min articles.length cfg.maxResults
    ∧ pyGetKey (search_news cfg accepts apiKey kw lang country cat sd ed outcome).1
        "search_params" =
        Option.some (searchParamsEcho kw lang country cat sd ed) := by
  have hmain : (search_news cfg accepts apiKey kw lang country cat sd ed outcome).1 =
      PyVal.dict [
        ("status", PyVal.str "success"),
        ("total_results", PyVal.int (formatted.length : Int)),
        ("articles", PyVal.list formatted),
        ("search_params", searchParamsEcho kw lang country cat sd ed)] := by
    rw [search_news_valid_dates cfg accepts apiKey kw lang country cat sd ed
      outcome hsd hed]
    unfold searchFetch
    rw [hreq]
    simp [hst, hnews, pySlice, pyIterate, hfmt]
  have hlen := exceptMapM_ok_length format_news_article
    (articles.take cfg.maxResults) formatted hfmt
  rw [List.length_take] at hlen
  refine ⟨hmain, hlen.trans (Nat.min_comm _ _), ?_⟩
  rw [hmain]
  simp [pyGetKey, pyGet, List.find?]

/-- Witness for the amended C7: 25 remote articles, the default cap of
20, no filters. -/
theorem search_success_caps_and_echoes_witness :
    (List.replicate 20 sampleFormatted).length =
      min (List.replicate 25 (PyVal.dict sampleArticleKvs)).length
        defaultServerConfig.maxResults
    ∧ (search_news defaultServerConfig dateutil_accepts (Option.some "key")
        Option.none Option.none Option.none Option.none Option.none Option.none
        (TransportOutcome.response 200 (PyVal.dict [("status", PyVal.str "ok"),
          ("news", PyVal.list (List.replicate 25
            (PyVal.dict sampleArticleKvs)))]))).1 =
      PyVal.dict [
        ("status", PyVal.str "success"),
        ("total_results", PyVal.int (((List.replicate 20 sampleFormatted)).length : Int)),
        ("articles", PyVal.list (List.replicate 20 sampleFormatted)),
        ("search_params", searchParamsEcho Option.none Option.none Option.none
          Option.none Option.none Option.none)] :=
  ⟨(search_success_caps_and_echoes defaultServerConfig dateutil_accepts
      (Option.some "key") Option.none Option.none Option.none Option.none
      Option.none Option.none
      (TransportOutcome.response 200 (PyVal.dict [("status", PyVal.str "ok"),
        ("news", PyVal.list (List.replicate 25 (PyVal.dict sampleArticleKvs)))]))
      [("status", PyVal.str "ok"),
        ("news", PyVal.list (List.replicate 25 (PyVal.dict sampleArticleKvs)))]
      (List.replicate 25 (PyVal.dict sampleArticleKvs))
      (List.replicate 20 sampleFormatted) true
      rfl rfl rfl rfl rfl rfl).2.1,
   (search_success_caps_and_echoes defaultServerConfig dateutil_accepts
      (Option.some "key") Option.none Option.none Option.none Option.none
      Option.none Option.none
      (TransportOutcome.response 200 (PyVal.dict [("status", PyVal.str "ok"),
        ("news", PyVal.list (List.replicate 25 (PyVal.dict sampleArticleKvs)))]))
      [("status", PyVal.str "ok"),
        ("news", PyVal.list (List.replicate 25 (PyVal.dict sampleArticleKvs)))]
      (List.replicate 25 (PyVal.dict sampleArticleKvs))
      (List.replicate 20 sampleFormatted) true
      rfl rfl rfl rfl rfl rfl).1⟩

/-! ## C2: reference lookups within TTL serve from cache -/

/-- C2 counterexample: a first languages call succeeds against the
provider tagged `source: "api"`, and a second call within the TTL is
served from cache without contacting the provider — but its payload is
not identical to the first: the api-tagged payload carries a
`total_languages` count field that the cache-tagged payload omits, so
the payloads differ even after retagging the first one's source to
"cache". -/
theorem reference_cache_payload_not_identical :
    c2Run1.1 = PyVal.dict [("status", PyVal.str "success"),
      ("source", PyVal.str "api"),
      ("languages", PyVal.dict [("en", PyVal.str "English")]),
      ("total_languages", PyVal.int 1)]
    ∧ c2Run1.2.2 = true
    ∧ c2Run2.1 = PyVal.dict [("status", PyVal.str "success"),
      ("source", PyVal.str "cache"),
      ("languages", PyVal.dict [("en", PyVal.str "English")])]
    ∧ c2Run2.2.2 = false
    ∧ pyGetKey c2Run1.1 "total_languages" = Option.some (PyVal.int 1)
    ∧ pyGetKey c2Run2.1 "total_languages" = Option.none
    ∧ ¬(c2Run2.1 = pySetKey c2Run1.1 "source" (PyVal.str "cache"))
    ∧ ¬(c2Run2.1 = c2Run1.1) := by
  refine ⟨rfl, rfl, rfl, rfl, rfl, rfl, ?_, ?_⟩
  · intro h
    have h2 : pyGetKey c2Run2.1 "total_languages" =
        pyGetKey (pySetKey c2Run1.1 "source" (PyVal.str "cache"))
          "total_languages" := by
      rw [h]
    have h3 : (Option.none : Option PyVal) = Option.some (PyVal.int 1) := h2
    exact Option.noConfusion h3
  · intro h
    have h2 : pyGetKey c2Run2.1 "total_languages" =
        pyGetKey c2Run1.1 "total_languages" := by
      rw [h]
    have h3 : (Option.none : Option PyVal) = Option.some (PyVal.int 1) := h2
    exact Option.noConfusion h3

/-- C2 (amended): for each reference operation, if a first call misses
the cache and succeeds against the provider (tagged `source: "api"`)
with non-empty (truthy) reference data, then any second call within
the TTL serves the same reference data tagged `source: "cache"`
without contacting the provider and without touching the cache — but
the cache-tagged payload omits the total-count field, so it is not
identical to the api-tagged payload. -/
theorem reference_cache_second_call :
    (∀ (cfg : ServerConfig) (apiKey apiKey2 : Option String) (cache : Cache)
      (now now2 : Int) (outcome outcome2 : TransportOutcome)
      (kvs : List (String × PyVal)) (att : Bool) (L : PyVal) (n : Int),
      cacheHitTruthy cache now "languages" = false →
      make_api_request cfg apiKey [] outcome = (Except.ok (PyVal.dict kvs), att) →
      statusOk (pyGet kvs "status") = true →
      L = dictGetD kvs "languages" (PyVal.dict []) →
      pyTruthy L = true →
      pyLen L = Except.ok n →
      now2 - now < CACHE_TTL →
      get_available_languages cfg apiKey cache now outcome =
        (PyVal.dict [("status", PyVal.str "success"), ("source", PyVal.str "api"),
          ("languages", L), ("total_languages", PyVal.int n)],
         set_cached_data cache "languages" L now, att)
      ∧ get_available_languages cfg apiKey2
          (set_cached_data cache "languages" L now) now2 outcome2 =
        (cacheHitPayload "languages" L,
         set_cached_data cache "languages" L now, false)
      ∧ pyGetKey (cacheHitPayload "languages" L) "languages" = Option.some L
      ∧ pyGetKey (cacheHitPayload "languages" L) "source" =
          Option.some (PyVal.str "cache")
      ∧ pyGetKey (cacheHitPayload "languages" L) "total_languages" = Option.none)
    ∧ (∀ (cfg : ServerConfig) (apiKey apiKey2 : Option String) (cache : Cache)
      (now now2 : Int) (outcome outcome2 : TransportOutcome)
      (kvs : List (String × PyVal)) (att : Bool) (L : PyVal) (n : Int),
      cacheHitTruthy cache now "regions" = false →
      make_api_request cfg apiKey [] outcome = (Except.ok (PyVal.dict kvs), att) →
      statusOk (pyGet kvs "status") = true →
      L = dictGetD kvs "regions" (PyVal.dict []) →
      pyTruthy L = true →
      pyLen L = Except.ok n →
      now2 - now < CACHE_TTL →
      get_available_regions cfg apiKey cache now outcome =
        (PyVal.dict [("status", PyVal.str "success"), ("source", PyVal.str "api"),
          ("regions", L), ("total_regions", PyVal.int n)],
         set_cached_data cache "regions" L now, att)
      ∧ get_available_regions cfg apiKey2
          (set_cached_data cache "regions" L now) now2 outcome2 =
        (cacheHitPayload "regions" L,
         set_cached_data cache "regions" L now, false)
      ∧ pyGetKey (cacheHitPayload "regions" L) "regions" = Option.some L
      ∧ pyGetKey (cacheHitPayload "regions" L) "source" =
          Option.some (PyVal.str "cache")
      ∧ pyGetKey (cacheHitPayload "regions" L) "total_regions" = Option.none)
    ∧ (∀ (cfg : ServerConfig) (apiKey apiKey2 : Option String) (cache : Cache)
      (now now2 : Int) (outcome outcome2 : TransportOutcome)
      (kvs : List (String × PyVal)) (att : Bool) (L : PyVal) (n : Int),
      cacheHitTruthy cache now "categories" = false →
      make_api_request cfg apiKey [] outcome = (Except.ok (PyVal.dict kvs), att) →
      statusOk (pyGet kvs "status") = true →
      L = dictGetD kvs "categories" (PyVal.list []) →
      pyTruthy L = true →
      pyLen L = Except.ok n →
      now2 - now < CACHE_TTL →
      get_available_categories cfg apiKey cache now outcome =
        (PyVal.dict [("status", PyVal.str "success"), ("source", PyVal.str "api"),
          ("categories", L), ("total_categories", PyVal.int n)],
         set_cached_data cache "categories" L now, att)
      ∧ get_available_categories cfg apiKey2
          (set_cached_data cache "categories" L now) now2 outcome2 =
        (cacheHitPayload "categories" L,
         set_cached_data cache "categories" L now, false)
      ∧ pyGetKey (cacheHitPayload "categories" L) "categories" = Option.some L
      ∧ pyGetKey (cacheHitPayload "categories" L) "source" =
          Option.some (PyVal.str "cache")
      ∧ pyGetKey (cacheHitPayload "categories" L) "total_categories" =
          Option.none) := by
  refine ⟨?_, ?_, ?_⟩
  · intro cfg apiKey apiKey2 cache now now2 outcome outcome2 kvs att L n
      hmiss hreq hst hL hLt hn httl
    subst hL
    refine ⟨?_, ?_,
      by simp [cacheHitPayload, pyGetKey, pyGet, List.find?],
      by simp [cacheHitPayload, pyGetKey, pyGet, List.find?],
      by simp [cacheHitPayload, pyGetKey, pyGet, List.find?]⟩
    · rw [languages_cache_miss cfg apiKey cache now outcome hmiss]
      unfold languagesFetch
      rw [hreq]
      simp [hst, hn]
    · unfold get_available_languages
      rw [get_cached_set_same, if_pos httl]
      simp [hLt, cacheHitPayload]
  · intro cfg apiKey apiKey2 cache now now2 outcome outcome2 kvs att L n
      hmiss hreq hst hL hLt hn httl
    subst hL
    refine ⟨?_, ?_,
      by simp [cacheHitPayload, pyGetKey, pyGet, List.find?],
      by simp [cacheHitPayload, pyGetKey, pyGet, List.find?],
      by simp [cacheHitPayload, pyGetKey, pyGet, List.find?]⟩
    · rw [regions_cache_miss cfg apiKey cache now outcome hmiss]
      unfold regionsFetch
      rw [hreq]
      simp [hst, hn]
    · unfold get_available_regions
      rw [get_cached_set_same, if_pos httl]
      simp [hLt, cacheHitPayload]
  · intro cfg apiKey apiKey2 cache now now2 outcome outcome2 kvs att L n
      hmiss hreq hst hL hLt hn httl
    subst hL
    refine ⟨?_, ?_,
      by simp [cacheHitPayload, pyGetKey, pyGet, List.find?],
      by simp [cacheHitPayload, pyGetKey, pyGet, List.find?],
      by simp [cacheHitPayload, pyGetKey, pyGet, List.find?]⟩
    · rw [categories_cache_miss cfg apiKey cache now outcome hmiss]
      unfold categoriesFetch
      rw [hreq]
      simp [hst, hn]
    · unfold get_available_categories
      rw [get_cached_set_same, if_pos httl]
      simp [hLt, cacheHitPayload]

/-- Witness for the amended C2 at the concrete run of the
counterexample: the second call is a pure cache hit. -/
theorem reference_cache_second_call_witness :
    get_available_languages defaultServerConfig (Option.some "key")
      (set_cached_data [] "languages" (PyVal.dict [("en", PyVal.str "English")]) 0)
      10 TransportOutcome.timeout =
      (cacheHitPayload "languages" (PyVal.dict [("en", PyVal.str "English")]),
       set_cached_data [] "languages" (PyVal.dict [("en", PyVal.str "English")]) 0,
       false)
    ∧ pyGetKey (cacheHitPayload "languages"
        (PyVal.dict [("en", PyVal.str "English")])) "total_languages" =
        Option.none :=
  ⟨(reference_cache_second_call.1 defaultServerConfig (Option.some "key")
      (Option.some "key") [] 0 10 (TransportOutcome.response 200 c2Body)
      TransportOutcome.timeout c2BodyKvs true
      (PyVal.dict [("en", PyVal.str "English")]) 1
      rfl rfl rfl rfl rfl rfl (by decide)).2.1,
   (reference_cache_second_call.1 defaultServerConfig (Option.some "key")
      (Option.some "key") [] 0 10 (TransportOutcome.response 200 c2Body)
      TransportOutcome.timeout c2BodyKvs true
      (PyVal.dict [("en", PyVal.str "English")]) 1
      rfl rfl rfl rfl rfl rfl (by decide)).2.2.2.2⟩
